import Mathlib

/-!
Shallow embedding of the git-ubuntu-operator reconciliation core
(`src/importer_node.py`, `src/git_ubuntu.py`, `src/service_management.py`).

The service backend (systemd wrappers), the filesystem and the git clone are
the external collaborators of the core; they are modelled by an `Env` of
boolean outcome functions plus a small `World` that tracks the modelled data
filesystem (database files, source checkouts, created directories) and a
trace of every OS-level call the core issues.  Systemd unit files live behind
the service-backend abstraction, so they are recorded in the trace but not in
`World.files`.
-/

namespace GitUbuntuOperator

/-- Join of `pathops.LocalPath(a, b)` / `Path(a) / b`; a trailing slash on the
left part is not doubled, matching `pathlib` normalization. -/
def pjoin (a b : String) : String :=
  if a.data.getLast? = some '/' then a ++ b else a ++ "/" ++ b

/-- One OS-level call issued by the core to a collaborator. -/
inductive Event where
  | createFile (filename folder contents : String)
  | daemonReload
  | startSvc (name : String)
  | stopSvc (name : String)
  | unlinkSvc (path : String)
  | mkdirDir (path : String)
  | moveFile (src dst : String)
  | removeTree (path : String)
  | cloneRepo (url dest : String)
  deriving DecidableEq

/-- Outcome of `pathops.LocalPath.mkdir` as classified by the source's
`try/except` ladder in `_update_data_directory` / `_update_source_directory`. -/
inductive MkdirOutcome where
  | created
  | fileExistsAlready
  | notADirectory
  | permissionDenied
  | lookupFailed
  deriving DecidableEq

/-- Modelled filesystem state plus the trace of issued OS calls
(most recent call first). -/
structure World where
  files : List String
  dirs : List String
  trace : List Event
  deriving DecidableEq

def emptyWorld : World := ⟨[], [], []⟩

def logEvent (w : World) (e : Event) : World := { w with trace := e :: w.trace }

def insertPath (p : String) (l : List String) : List String :=
  if l.contains p then l else p :: l

def removePath (p : String) (l : List String) : List String :=
  l.filter (fun q => q != p)

/-- Existence check `path.exists()` against the modelled data filesystem. -/
def wContains (w : World) (p : String) : Bool := w.files.contains p

/-- Directory check `path.is_dir()` against the modelled filesystem. -/
def wIsDir (w : World) (p : String) : Bool := w.dirs.contains p

/-- Outcomes of the external collaborators: the systemd service backend,
the filesystem operations whose success is environment-determined, and the
`git clone` subprocess. -/
structure Env where
  createFileOk : String → String → Bool
  daemonReloadOk : Bool
  startSvcOk : String → Bool
  stopSvcOk : String → Bool
  unlinkOk : String → Bool
  mkdirOutcome : String → MkdirOutcome
  moveOk : Bool
  rmtreeOk : Bool
  cloneOk : String → Bool

/-- Environment in which every collaborator call succeeds. -/
def allOkEnv : Env :=
  { createFileOk := fun _ _ => true
    daemonReloadOk := true
    startSvcOk := fun _ => true
    stopSvcOk := fun _ => true
    unlinkOk := fun _ => true
    mkdirOutcome := fun _ => .created
    moveOk := true
    rmtreeOk := true
    cloneOk := fun _ => true }

/-- State of one `GitUbuntu` instance: `self._service_file` and `self._started`. -/
structure Svc where
  serviceFile : String
  started : Bool
  deriving DecidableEq

/-- `GitUbuntu.__init__`. -/
def Svc.blank : Svc := ⟨"", false⟩

/-- `GitUbuntu.start`. -/
def svcStart (env : Env) (s : Svc) (w : World) : Bool × Svc × World :=
  let w := logEvent w (.startSvc s.serviceFile)
  let s := if env.startSvcOk s.serviceFile then { s with started := true } else s
  (s.started, s, w)

/-- `GitUbuntu.stop`. -/
def svcStop (env : Env) (s : Svc) (w : World) : Bool × Svc × World :=
  let w := logEvent w (.stopSvc s.serviceFile)
  let s := if env.stopSvcOk s.serviceFile then { s with started := false } else s
  (!s.started, s, w)

/-- Unlink-and-reload tail of `GitUbuntu.destroy` (after the stop guard). -/
def svcDestroyCore (env : Env) (s : Svc) (w : World) : Bool × Svc × World :=
  let path := pjoin "/etc/systemd/system/" s.serviceFile
  let w := logEvent w (.unlinkSvc path)
  if !env.unlinkOk path then (false, s, w)
  else
    let s := { s with serviceFile := "" }
    let w := logEvent w .daemonReload
    if !env.daemonReloadOk then (false, s, w) else (true, s, w)

/-- `GitUbuntu.destroy`. -/
def svcDestroy (env : Env) (s : Svc) (w : World) : Bool × Svc × World :=
  if s.started then
    let r := svcStop env s w
    if !r.1 then (false, r.2.1, r.2.2) else svcDestroyCore env r.2.1 r.2.2
  else svcDestroyCore env s w

/-- Embedding of `generate_systemd_service_string` from `git_ubuntu.py`;
optional sections are `None` in the source when omitted. -/
def generateSystemdServiceString (description serviceUser serviceGroup serviceType
    execStart : String) (serviceRestart : Option String)
    (restartSec timeoutStartSec timeoutAbortSec watchdogSec : Option Nat)
    (watchdogSignal runtimeDir : Option String) (privateTmp : Option Bool)
    (environment wantedBy : Option String) : String :=
  let lines := ["[Unit]", "Description=" ++ description, "", "[Service]",
    "User=" ++ serviceUser, "Group=" ++ serviceGroup, "Type=" ++ serviceType,
    "ExecStart=" ++ execStart]
  let lines := match serviceRestart with
    | some v => lines ++ ["Restart=" ++ v]
    | none => lines
  let lines := match restartSec with
    | some v => lines ++ ["RestartSec=" ++ toString v]
    | none => lines
  let lines := match timeoutStartSec with
    | some v => lines ++ ["TimeoutStartSec=" ++ toString v]
    | none => lines
  let lines := match timeoutAbortSec with
    | some v => lines ++ ["TimeoutAbortSec=" ++ toString v]
    | none => lines
  let lines := match watchdogSec with
    | some v => lines ++ ["WatchdogSec=" ++ toString v]
    | none => lines
  let lines := match watchdogSignal with
    | some v => lines ++ ["WatchdogSignal=" ++ v]
    | none => lines
  let lines := match runtimeDir with
    | some v => lines ++ ["RuntimeDirectory=" ++ v]
    | none => lines
  let lines := match privateTmp with
    | some true => lines ++ ["PrivateTmp=yes"]
    | some false => lines ++ ["PrivateTmp=no"]
    | none => lines
  let lines := match environment with
    | some v => lines ++ ["Environment=" ++ v]
    | none => lines
  let lines := match wantedBy with
    | some v => lines ++ ["\n[Install]\nWantedBy=" ++ v]
    | none => lines
  String.intercalate "\n" lines

/-- Folder every instance setup writes its unit file to in `git_ubuntu.py`. -/
def servicesFolder : String := "/home/git-ubuntu/services/"

/-- Stop-the-service-if-running prologue shared by the three `setup` overrides. -/
def svcSetupPre (env : Env) (s : Svc) (w : World) : Bool × Svc × World :=
  if s.started then svcStop env s w else (true, s, w)

/-- Create-file, conditional daemon-reload, record-filename tail shared by the
three `setup` overrides. -/
def svcSetupFile (env : Env) (s : Svc) (w : World) (filename contents : String) :
    Bool × Svc × World :=
  let w := logEvent w (.createFile filename servicesFolder contents)
  if !env.createFileOk filename servicesFolder then (false, s, w)
  else if s.serviceFile != "" then
    let w := logEvent w .daemonReload
    if !env.daemonReloadOk then (false, s, w)
    else (true, { s with serviceFile := filename }, w)
  else (true, { s with serviceFile := filename }, w)

/-- Unit-file contents built by `GitUbuntuWorker.setup`. -/
def workerServiceString (user group : String) (pushToLp : Bool) (brokerIp : String)
    (brokerPort : Nat) : String :=
  let publishArg := if !pushToLp then " --no-push" else ""
  let brokerUrl := "tcp://" ++ brokerIp ++ ":" ++ toString brokerPort
  let execStart := "/snap/bin/git-ubuntu importer-service-worker" ++ publishArg
    ++ " %i " ++ brokerUrl
  generateSystemdServiceString "git-ubuntu importer service worker" user group "notify"
    execStart (some "always") (some 60) none (some 600) (some 259200) (some "SIGINT")
    none (some true) (some "PYTHONUNBUFFERED=1") (some "multi-user.target")

/-- Unit filename built by `GitUbuntuWorker.setup`. -/
def workerServiceFilename (workerName : String) : String :=
  "git-ubuntu-importer-service-worker" ++ workerName ++ ".service"

/-- `GitUbuntuWorker.setup`. -/
def workerSetup (env : Env) (s : Svc) (w : World) (user group workerName : String)
    (pushToLp : Bool) (brokerIp : String) (brokerPort : Nat) : Bool × Svc × World :=
  let pre := svcSetupPre env s w
  if !pre.1 then (false, pre.2.1, pre.2.2)
  else svcSetupFile env pre.2.1 pre.2.2 (workerServiceFilename workerName)
    (workerServiceString user group pushToLp brokerIp brokerPort)

/-- Unit-file contents built by `GitUbuntuBroker.setup`. -/
def brokerServiceString (user group : String) (brokerPort : Nat) : String :=
  generateSystemdServiceString "git-ubuntu importer service broker" user group "simple"
    ("/snap/bin/git-ubuntu importer-service-broker tcp://*:" ++ toString brokerPort)
    (some "always") none none none none none (some "git-ubuntu") none
    (some "PYTHONUNBUFFERED=1") (some "multi-user.target")

/-- `GitUbuntuBroker.setup`. -/
def brokerSetup (env : Env) (s : Svc) (w : World) (user group : String)
    (brokerPort : Nat) : Bool × Svc × World :=
  let pre := svcSetupPre env s w
  if !pre.1 then (false, pre.2.1, pre.2.2)
  else svcSetupFile env pre.2.1 pre.2.2 "git-ubuntu-importer-service-broker.service"
    (brokerServiceString user group brokerPort)

/-- Unit-file contents built by `GitUbuntuPoller.setup`. -/
def pollerServiceString (user group denylist proxy : String) : String :=
  let execStart := "/snap/bin/git-ubuntu importer-service-poller --denylist " ++ denylist
  let environment := if proxy != "" then "http_proxy=" ++ proxy ++ " PYTHONUNBUFFERED=1"
    else "PYTHONUNBUFFERED=1"
  generateSystemdServiceString "git-ubuntu importer service poller" user group "notify"
    execStart (some "always") (some 60) (some 1200) none (some 86400) none none none
    (some environment) (some "multi-user.target")

/-- `GitUbuntuPoller.setup`. -/
def pollerSetup (env : Env) (s : Svc) (w : World) (user group denylist proxy : String) :
    Bool × Svc × World :=
  let pre := svcSetupPre env s w
  if !pre.1 then (false, pre.2.1, pre.2.2)
  else svcSetupFile env pre.2.1 pre.2.2 "git-ubuntu-importer-service-poller.service"
    (pollerServiceString user group denylist proxy)

/-- State of an `ImporterNode`: `self._node_id`, `self._user`, `self._push_to_lp`,
`self._port`, `self._primary_ip` and `self._workers`. -/
structure ImporterNode where
  nodeId : Int
  user : String
  pushToLp : Bool
  port : Nat
  primaryIp : String
  workers : List Svc
  deriving DecidableEq

/-- `ImporterNode.__init__`. -/
def ImporterNode.init (nodeId : Int) (numWorkers : Nat) (systemUser : String)
    (pushToLp : Bool) (primaryPort : Nat) (primaryIp : String) : ImporterNode :=
  { nodeId := nodeId, user := systemUser, pushToLp := pushToLp, port := primaryPort,
    primaryIp := primaryIp, workers := List.replicate numWorkers Svc.blank }

/-- Worker name passed to `GitUbuntuWorker.setup`: the f-string
`"{self._node_id}_{worker_number}"` of `ImporterNode._setup_worker`. -/
def workerName (nodeId : Int) (i : Nat) : String :=
  toString nodeId ++ "_" ++ toString i

/-- `ImporterNode._setup_worker`. -/
def ImporterNode.setupWorker (env : Env) (st : ImporterNode) (s : Svc) (i : Nat)
    (w : World) : Bool × Svc × World :=
  workerSetup env s w st.user st.user (workerName st.nodeId i) st.pushToLp
    st.primaryIp st.port

/-- Loop of `ImporterNode.install` over the indexed worker list. -/
def installLoop (env : Env) (st : ImporterNode) : List Svc → Nat → World →
    Bool × List Svc × World
  | [], _, w => (true, [], w)
  | s :: rest, i, w =>
    let r := st.setupWorker env s i w
    if !r.1 then (false, r.2.1 :: rest, r.2.2)
    else
      let r2 := installLoop env st rest (i + 1) r.2.2
      (r2.1, r.2.1 :: r2.2.1, r2.2.2)

/-- `ImporterNode.install`. -/
def ImporterNode.install (env : Env) (st : ImporterNode) (w : World) :
    Bool × ImporterNode × World :=
  let r := installLoop env st st.workers 0 w
  (r.1, { st with workers := r.2.1 }, r.2.2)

/-- Loop of `ImporterNode.start`. -/
def startLoop (env : Env) : List Svc → World → Bool × List Svc × World
  | [], w => (true, [], w)
  | s :: rest, w =>
    let r := svcStart env s w
    if !r.1 then (false, r.2.1 :: rest, r.2.2)
    else
      let r2 := startLoop env rest r.2.2
      (r2.1, r.2.1 :: r2.2.1, r2.2.2)

/-- `ImporterNode.start`. -/
def ImporterNode.start (env : Env) (st : ImporterNode) (w : World) :
    Bool × ImporterNode × World :=
  let r := startLoop env st.workers w
  (r.1, { st with workers := r.2.1 }, r.2.2)

/-- Loop of `ImporterNode.stop`. -/
def stopLoop (env : Env) : List Svc → World → Bool × List Svc × World
  | [], w => (true, [], w)
  | s :: rest, w =>
    let r := svcStop env s w
    if !r.1 then (false, r.2.1 :: rest, r.2.2)
    else
      let r2 := stopLoop env rest r.2.2
      (r2.1, r.2.1 :: r2.2.1, r2.2.2)

/-- `ImporterNode.stop`. -/
def ImporterNode.stop (env : Env) (st : ImporterNode) (w : World) :
    Bool × ImporterNode × World :=
  let r := stopLoop env st.workers w
  (r.1, { st with workers := r.2.1 }, r.2.2)

/-- Loop of `ImporterNode.destroy`. -/
def destroyLoop (env : Env) : List Svc → World → Bool × List Svc × World
  | [], w => (true, [], w)
  | s :: rest, w =>
    let r := svcDestroy env s w
    if !r.1 then (false, r.2.1 :: rest, r.2.2)
    else
      let r2 := destroyLoop env rest r.2.2
      (r2.1, r.2.1 :: r2.2.1, r2.2.2)

/-- `ImporterNode.destroy`. -/
def ImporterNode.destroy (env : Env) (st : ImporterNode) (w : World) :
    Bool × ImporterNode × World :=
  let r := destroyLoop env st.workers w
  (r.1, { st with workers := r.2.1 }, r.2.2)

/-- Remove-unneeded-workers loop of `ImporterNode.update`: each iteration is
`self._workers.pop()` followed by `worker.destroy()`.  `none` models the
`IndexError` Python raises when `pop` is called on an empty list. -/
def popLoop (env : Env) : Nat → ImporterNode → World →
    Option (Bool × ImporterNode × World)
  | 0, st, w => some (true, st, w)
  | k + 1, st, w =>
    match st.workers.getLast? with
    | none => none
    | some s =>
      let st := { st with workers := st.workers.dropLast }
      let r := svcDestroy env s w
      if !r.1 then some (false, st, r.2.2)
      else popLoop env k st r.2.2

/-- Add-new-workers loop of `ImporterNode.update` over the index range
`range(original_num_workers, num_workers)`.  Mirroring the source, the freshly
set-up worker is never appended to the node's worker list. -/
def addLoop (env : Env) (st : ImporterNode) : List Nat → World →
    Bool × ImporterNode × World
  | [], w => (true, st, w)
  | i :: rest, w =>
    let r := st.setupWorker env Svc.blank i w
    if !r.1 then (false, st, r.2.2)
    else addLoop env st rest r.2.2

/-- Refresh-all-old-workers loop of `ImporterNode.update` over
`range(original_num_workers)`.  `none` models the `IndexError` raised by
`self._workers[i]` when `i` is out of range after a scale-down. -/
def refreshLoop (env : Env) : List Nat → ImporterNode → World →
    Option (Bool × ImporterNode × World)
  | [], st, w => some (true, st, w)
  | i :: rest, st, w =>
    match st.workers.get? i with
    | none => none
    | some s =>
      let r := svcDestroy env s w
      let st := { st with workers := st.workers.set i r.2.1 }
      if !r.1 then some (false, st, r.2.2)
      else
        let r2 := st.setupWorker env r.2.1 i r.2.2
        let st := { st with workers := st.workers.set i r2.2.1 }
        if !r2.1 then some (false, st, r2.2.2)
        else refreshLoop env rest st r2.2.2

/-- `ImporterNode.update`.  Mirroring the source, `self._push_to_lp` is not
reassigned even though `push_to_lp` takes part in the `needs_refresh` check. -/
def ImporterNode.update (env : Env) (st : ImporterNode) (w : World)
    (forceRefresh : Bool) (nodeId : Int) (numWorkers : Nat) (systemUser : String)
    (pushToLp : Bool) (primaryPort : Nat) (primaryIp : String) :
    Option (Bool × ImporterNode × World) :=
  let needsRefresh := forceRefresh || nodeId != st.nodeId || systemUser != st.user
    || pushToLp != st.pushToLp || primaryPort != st.port || primaryIp != st.primaryIp
  let originalNumWorkers := st.workers.length
  let st := { st with
    nodeId := nodeId
    user := systemUser
    port := primaryPort
    primaryIp := primaryIp }
  match popLoop env (originalNumWorkers - numWorkers) st w with
  | none => none
  | some (false, st, w) => some (false, st, w)
  | some (true, st, w) =>
    match addLoop env st (List.range' originalNumWorkers (numWorkers - originalNumWorkers)) w with
    | (false, st, w) => some (false, st, w)
    | (true, st, w) =>
      if needsRefresh then refreshLoop env (List.range originalNumWorkers) st w
      else some (true, st, w)

/-- State of a `PrimaryImporterNode`: the inherited `ImporterNode` state plus
`self._broker`, `self._poller`, `self._data_dir` and `self._source_dir`. -/
structure PrimaryImporterNode where
  node : ImporterNode
  broker : Svc
  poller : Svc
  dataDir : String
  sourceDir : String
  deriving DecidableEq

/-- `self._git_ubuntu_source_url`. -/
def gitUbuntuSourceUrl : String := "https://git.launchpad.net/git-ubuntu"

/-- `self._git_ubuntu_source_subdir`. -/
def gitUbuntuSourceSubdir : String := "live-allowlist-denylist-source"

/-- Denylist path handed to `GitUbuntuPoller.setup`:
`LocalPath(source_dir) / subdir / "gitubuntu/source-package-denylist.txt"`. -/
def denylistPath (sourceDir : String) : String :=
  pjoin (pjoin sourceDir gitUbuntuSourceSubdir) "gitubuntu/source-package-denylist.txt"

/-- `PrimaryImporterNode.__init__`. -/
def PrimaryImporterNode.init (nodeId : Int) (numWorkers : Nat) (systemUser : String)
    (pushToLp : Bool) (primaryPort : Nat) (dataDirectory sourceDirectory : String) :
    PrimaryImporterNode :=
  { node := ImporterNode.init nodeId numWorkers systemUser pushToLp primaryPort "127.0.0.1"
    broker := Svc.blank
    poller := Svc.blank
    dataDir := dataDirectory
    sourceDir := sourceDirectory }

/-- `PrimaryImporterNode._clone_git_ubuntu_source`. -/
def cloneGitUbuntuSource (env : Env) (w : World) (directory : String) : Bool × World :=
  if !wIsDir w directory then (false, w)
  else
    let cloneDir := pjoin directory gitUbuntuSourceSubdir
    let w := logEvent w (.cloneRepo gitUbuntuSourceUrl cloneDir)
    if env.cloneOk cloneDir then (true, { w with files := insertPath cloneDir w.files })
    else (false, w)

/-- `PrimaryImporterNode.install`. -/
def PrimaryImporterNode.install (env : Env) (st : PrimaryImporterNode) (w : World) :
    Bool × PrimaryImporterNode × World :=
  let rb := brokerSetup env st.broker w st.node.user st.node.user st.node.port
  let st := { st with broker := rb.2.1 }
  if !rb.1 then (false, st, rb.2.2)
  else
    let rp := pollerSetup env st.poller rb.2.2 st.node.user st.node.user
      (denylistPath st.sourceDir) ""
    let st := { st with poller := rp.2.1 }
    if !rp.1 then (false, st, rp.2.2)
    else
      let rn := st.node.install env rp.2.2
      (rn.1, { st with node := rn.2.1 }, rn.2.2)

/-- `PrimaryImporterNode.start`. -/
def PrimaryImporterNode.start (env : Env) (st : PrimaryImporterNode) (w : World) :
    Bool × PrimaryImporterNode × World :=
  let rb := svcStart env st.broker w
  let st := { st with broker := rb.2.1 }
  if !rb.1 then (false, st, rb.2.2)
  else
    let rp := svcStart env st.poller rb.2.2
    let st := { st with poller := rp.2.1 }
    if !rp.1 then (false, st, rp.2.2)
    else
      let rn := st.node.start env rp.2.2
      (rn.1, { st with node := rn.2.1 }, rn.2.2)

/-- `PrimaryImporterNode.stop` with its three opt-out flags; the poller is
stopped before the broker, and the workers last. -/
def PrimaryImporterNode.stop (env : Env) (st : PrimaryImporterNode) (w : World)
    (stopBroker stopPoller stopWorkers : Bool) : Bool × PrimaryImporterNode × World :=
  let rp := if stopPoller then svcStop env st.poller w else (true, st.poller, w)
  let st := { st with poller := rp.2.1 }
  if !rp.1 then (false, st, rp.2.2)
  else
    let rb := if stopBroker then svcStop env st.broker rp.2.2 else (true, st.broker, rp.2.2)
    let st := { st with broker := rb.2.1 }
    if !rb.1 then (false, st, rb.2.2)
    else
      let rn := if stopWorkers then st.node.stop env rb.2.2 else (true, st.node, rb.2.2)
      (rn.1, { st with node := rn.2.1 }, rn.2.2)

/-- `PrimaryImporterNode.destroy` with its three opt-out flags. -/
def PrimaryImporterNode.destroy (env : Env) (st : PrimaryImporterNode) (w : World)
    (destroyBroker destroyPoller destroyWorkers : Bool) :
    Bool × PrimaryImporterNode × World :=
  let rp := if destroyPoller then svcDestroy env st.poller w else (true, st.poller, w)
  let st := { st with poller := rp.2.1 }
  if !rp.1 then (false, st, rp.2.2)
  else
    let rb := if destroyBroker then svcDestroy env st.broker rp.2.2
      else (true, st.broker, rp.2.2)
    let st := { st with broker := rb.2.1 }
    if !rb.1 then (false, st, rb.2.2)
    else
      let rn := if destroyWorkers then st.node.destroy env rb.2.2
        else (true, st.node, rb.2.2)
      (rn.1, { st with node := rn.2.1 }, rn.2.2)

/-- Mkdir-with-exception-ladder phase shared by both relocation routines:
`mkdir` is attempted, `FileExistsError` also counts as success, the other
three exception classes abort. -/
def mkdirPhase (env : Env) (w : World) (directory : String) : Bool × World :=
  let w := logEvent w (.mkdirDir directory)
  match env.mkdirOutcome directory with
  | .created => (true, { w with dirs := insertPath directory w.dirs })
  | .fileExistsAlready => (true, { w with dirs := insertPath directory w.dirs })
  | .notADirectory => (false, w)
  | .permissionDenied => (false, w)
  | .lookupFailed => (false, w)

/-- Database step of `PrimaryImporterNode._update_data_directory`: a database
already present in the new directory wins, otherwise an existing database is
moved from the old directory, otherwise nothing happens. -/
def dataDirMoveDb (env : Env) (st : PrimaryImporterNode) (w : World)
    (dataDirectory : String) : Bool × World :=
  let newDbFile := pjoin dataDirectory "db"
  let oldDbFile := pjoin st.dataDir "db"
  if wContains w newDbFile then (true, w)
  else if wContains w oldDbFile then
    let w := logEvent w (.moveFile oldDbFile newDbFile)
    if env.moveOk then
      (true, { w with files := insertPath newDbFile (removePath oldDbFile w.files) })
    else (false, w)
  else (true, w)

/-- Final phase of `PrimaryImporterNode._update_data_directory`: destroy broker
and poller (workers excluded) and recreate both against the current state. -/
def dataDirRecreate (env : Env) (st : PrimaryImporterNode) (w : World) :
    Bool × PrimaryImporterNode × World :=
  let rd := st.destroy env w true true false
  let st := rd.2.1
  if !rd.1 then (false, st, rd.2.2)
  else
    let rb := brokerSetup env st.broker rd.2.2 st.node.user st.node.user st.node.port
    let st := { st with broker := rb.2.1 }
    if !rb.1 then (false, st, rb.2.2)
    else
      let rp := pollerSetup env st.poller rb.2.2 st.node.user st.node.user
        (denylistPath st.sourceDir) ""
      (rp.1, { st with poller := rp.2.1 }, rp.2.2)

/-- `PrimaryImporterNode._update_data_directory`. -/
def PrimaryImporterNode.updateDataDirectory (env : Env) (st : PrimaryImporterNode)
    (w : World) (dataDirectory : String) : Bool × PrimaryImporterNode × World :=
  if dataDirectory == st.dataDir then (true, st, w)
  else
    let rm := mkdirPhase env w dataDirectory
    if !rm.1 then (false, st, rm.2)
    else
      let rs := st.stop env rm.2 true true false
      let st := rs.2.1
      if !rs.1 then (false, st, rs.2.2)
      else
        let rdb := dataDirMoveDb env st rs.2.2 dataDirectory
        if !rdb.1 then (false, st, rdb.2)
        else
          let st := { st with dataDir := dataDirectory }
          dataDirRecreate env st rdb.2

/-- `PrimaryImporterNode._update_source_directory`.  Mirroring the source, the
poller is recreated with the denylist path still derived from the old
`self._source_dir`; the new path is recorded only afterwards. -/
def PrimaryImporterNode.updateSourceDirectory (env : Env) (st : PrimaryImporterNode)
    (w : World) (sourceDirectory : String) : Bool × PrimaryImporterNode × World :=
  if sourceDirectory == st.sourceDir then (true, st, w)
  else
    let rm := mkdirPhase env w sourceDirectory
    if !rm.1 then (false, st, rm.2)
    else
      let rs := st.stop env rm.2 false true false
      let st := rs.2.1
      if !rs.1 then (false, st, rs.2.2)
      else
        let newCloneDir := pjoin sourceDirectory gitUbuntuSourceSubdir
        let rrm : Bool × World :=
          if wContains rs.2.2 newCloneDir then
            let w2 := logEvent rs.2.2 (.removeTree newCloneDir)
            if env.rmtreeOk then (true, { w2 with files := removePath newCloneDir w2.files })
            else (false, w2)
          else (true, rs.2.2)
        if !rrm.1 then (false, st, rrm.2)
        else
          let rc := cloneGitUbuntuSource env rrm.2 sourceDirectory
          if !rc.1 then (false, st, rc.2)
          else
            let rd := st.destroy env rc.2 false true false
            let st := rd.2.1
            if !rd.1 then (false, st, rd.2.2)
            else
              let rp := pollerSetup env st.poller rd.2.2 st.node.user st.node.user
                (denylistPath st.sourceDir) ""
              let st := { st with poller := rp.2.1 }
              if !rp.1 then (false, st, rp.2.2)
              else (true, { st with sourceDir := sourceDirectory }, rp.2.2)

/-- The `full_refresh_needed` local of `PrimaryImporterNode.update`. -/
def fullRefreshNeeded (st : PrimaryImporterNode) (forceRefresh : Bool)
    (systemUser dataDirectory : String) : Bool :=
  forceRefresh || systemUser != st.node.user || dataDirectory != st.dataDir

/-- The `broker_refresh_needed` local of `PrimaryImporterNode.update`. -/
def brokerRefreshNeeded (st : PrimaryImporterNode) (forceRefresh : Bool)
    (systemUser dataDirectory : String) (primaryPort : Nat) : Bool :=
  fullRefreshNeeded st forceRefresh systemUser dataDirectory || primaryPort != st.node.port

/-- The `poller_refresh_needed` local of `PrimaryImporterNode.update`. -/
def pollerRefreshNeeded (st : PrimaryImporterNode) (forceRefresh : Bool)
    (systemUser dataDirectory sourceDirectory : String) : Bool :=
  fullRefreshNeeded st forceRefresh systemUser dataDirectory
    || sourceDirectory != st.sourceDir

/-- `PrimaryImporterNode.update`. -/
def PrimaryImporterNode.update (env : Env) (st : PrimaryImporterNode) (w : World)
    (forceRefresh : Bool) (nodeId : Int) (numWorkers : Nat) (systemUser : String)
    (pushToLp : Bool) (primaryPort : Nat) (primaryIp dataDirectory sourceDirectory : String) :
    Option (Bool × PrimaryImporterNode × World) :=
  let brokerR := brokerRefreshNeeded st forceRefresh systemUser dataDirectory primaryPort
  let pollerR := pollerRefreshNeeded st forceRefresh systemUser dataDirectory sourceDirectory
  let rdd := st.updateDataDirectory env w dataDirectory
  let st := rdd.2.1
  if !rdd.1 then some (false, st, rdd.2.2)
  else
    let rsd := st.updateSourceDirectory env rdd.2.2 sourceDirectory
    let st := rsd.2.1
    if !rsd.1 then some (false, st, rsd.2.2)
    else
      let rd := st.destroy env rsd.2.2 brokerR pollerR false
      let st := rd.2.1
      if !rd.1 then some (false, st, rd.2.2)
      else
        match st.node.update env rd.2.2 forceRefresh nodeId numWorkers systemUser
            pushToLp primaryPort primaryIp with
        | none => none
        | some (false, n, w) => some (false, { st with node := n }, w)
        | some (true, n, w) =>
          let st := { st with node := n }
          let rb := if brokerR then
              brokerSetup env st.broker w st.node.user st.node.user st.node.port
            else (true, st.broker, w)
          let st := { st with broker := rb.2.1 }
          if !rb.1 then some (false, st, rb.2.2)
          else
            let rp := if pollerR then
                pollerSetup env st.poller rb.2.2 st.node.user st.node.user
                  (denylistPath st.sourceDir) ""
              else (true, st.poller, rb.2.2)
            let st := { st with poller := rp.2.1 }
            if !rp.1 then some (false, st, rp.2.2)
            else some (true, st, rp.2.2)

/-- The state an `EmptyImporterNode` is constructed with:
`super().__init__(0, 0, "", False, 0, "")`. -/
def EmptyImporterNode.state : ImporterNode := ImporterNode.init 0 0 "" false 0 ""

/-- The `EmptyImporterNode.install` override: log and return `False`. -/
def EmptyImporterNode.install (w : World) : Bool × World := (false, w)

/-- The `EmptyImporterNode.start` override: log and return `False`. -/
def EmptyImporterNode.start (w : World) : Bool × World := (false, w)

/-- The `EmptyImporterNode.stop` override: log and return `False`. -/
def EmptyImporterNode.stop (w : World) : Bool × World := (false, w)

/-- The `EmptyImporterNode.destroy` override: log and return `False`. -/
def EmptyImporterNode.destroy (w : World) : Bool × World := (false, w)

/-- Number of service-file removals (one per successful or attempted
`GitUbuntu.destroy` unlink) recorded in a trace. -/
def countUnlinks (tr : List Event) : Nat :=
  tr.countP (fun e => match e with | .unlinkSvc _ => true | _ => false)

/-- Number of unit-file creations (one per `setup` call that reaches the
service backend) recorded in a trace. -/
def countCreates (tr : List Event) : Nat :=
  tr.countP (fun e => match e with | .createFile _ _ _ => true | _ => false)

/-- Concrete run: a node holding one worker receives an `update` that requests
two workers and changes nothing else, with every backend call succeeding. -/
def scaleUpRun : Option (Bool × ImporterNode × World) :=
  ImporterNode.update allOkEnv (ImporterNode.init 7 1 "ubuntu" true 1692 "10.0.0.1")
    emptyWorld false 7 2 "ubuntu" true 1692 "10.0.0.1"

/-- Concrete run: a one-worker node installed with `push_to_lp = False` is
updated twice with the identical desired state that has `push_to_lp = True`;
the result records both outcomes and the unlink and create counts after the
first and after the second `update`. -/
def idempotenceRun : Option (Bool × Bool × Nat × Nat × Nat × Nat) :=
  let r1 := ImporterNode.install allOkEnv
    (ImporterNode.init 3 1 "ubuntu" false 1692 "10.0.0.1") emptyWorld
  match ImporterNode.update allOkEnv r1.2.1 r1.2.2 false 3 1 "ubuntu" true 1692 "10.0.0.1" with
  | none => none
  | some (ok2, st2, w2) =>
    match ImporterNode.update allOkEnv st2 w2 false 3 1 "ubuntu" true 1692 "10.0.0.1" with
    | none => none
    | some (ok3, _, w3) =>
      some (ok2, ok3, countUnlinks w2.trace, countUnlinks w3.trace,
        countCreates w2.trace, countCreates w3.trace)

/-- Concrete run: an installed two-worker node is updated to one worker with
`force_refresh = True` and every backend call succeeding. -/
def scaleDownRefreshRun : Option (Bool × ImporterNode × World) :=
  let r1 := ImporterNode.install allOkEnv
    (ImporterNode.init 5 2 "ubuntu" true 1692 "10.0.0.1") emptyWorld
  ImporterNode.update allOkEnv r1.2.1 r1.2.2 true 5 1 "ubuntu" true 1692 "10.0.0.1"

/-- Concrete run: an installed two-worker node is updated to zero workers with
a changed system user, so the refresh pass runs after the scale-down. -/
def scaleToZeroRefreshRun : Option (Bool × ImporterNode × World) :=
  let r1 := ImporterNode.install allOkEnv
    (ImporterNode.init 4 2 "ubuntu" true 1692 "10.0.0.1") emptyWorld
  ImporterNode.update allOkEnv r1.2.1 r1.2.2 false 4 0 "newuser" true 1692 "10.0.0.1"

/-- Concrete run: a primary node with source directory `/home/ubuntu` relocates
its source directory to `/home/user2` with every collaborator call succeeding. -/
def sourceRelocRun : Bool × PrimaryImporterNode × World :=
  PrimaryImporterNode.updateSourceDirectory allOkEnv
    (PrimaryImporterNode.init 0 0 "ubuntu" true 1692 "/var/local/git-ubuntu" "/home/ubuntu")
    emptyWorld "/home/user2"

/-- Concrete run: `update` on the uninitialized sentinel node, requesting two
workers; `EmptyImporterNode` does not override `update`, so the base
reconciliation runs. -/
def emptyNodeUpdateRun : Option (Bool × ImporterNode × World) :=
  ImporterNode.update allOkEnv EmptyImporterNode.state emptyWorld false 1 2 "ubuntu" true
    1692 "10.0.0.1"

/-- The `needs_refresh` disjunction exactly as claim C5 words it (from the
spec), for comparison with the flags the code computes. -/
def claimedNeedsRefresh (st : PrimaryImporterNode) (forceRefresh : Bool) (nodeId : Int)
    (systemUser : String) (pushToLp : Bool) (primaryPort : Nat) (primaryIp : String) : Bool :=
  forceRefresh || nodeId != st.node.nodeId || systemUser != st.node.user
    || pushToLp != st.node.pushToLp || primaryPort != st.node.port
    || primaryIp != st.node.primaryIp

/-- The broker refresh flag exactly as claim C5 words it:
`needs_refresh OR primary_port changed`. -/
def claimedBrokerRefresh (st : PrimaryImporterNode) (forceRefresh : Bool) (nodeId : Int)
    (systemUser : String) (pushToLp : Bool) (primaryPort : Nat) (primaryIp : String) : Bool :=
  claimedNeedsRefresh st forceRefresh nodeId systemUser pushToLp primaryPort primaryIp
    || primaryPort != st.node.port

/-- The poller refresh flag exactly as claim C5 words it:
`needs_refresh OR source_directory changed`. -/
def claimedPollerRefresh (st : PrimaryImporterNode) (forceRefresh : Bool) (nodeId : Int)
    (systemUser : String) (pushToLp : Bool) (primaryPort : Nat)
    (primaryIp sourceDirectory : String) : Bool :=
  claimedNeedsRefresh st forceRefresh nodeId systemUser pushToLp primaryPort primaryIp
    || sourceDirectory != st.sourceDir

/-! Helper lemmas: membership facts for the modelled filesystem and proofs
that service-backend operations never touch the modelled data files. -/

theorem contains_insertPath_self (p : String) (l : List String) :
    (insertPath p l).contains p = true := by
  unfold insertPath
  split
  · assumption
  · simp [List.elem_iff]

theorem contains_insertPath_ne (p q : String) (l : List String) (h : q ≠ p) :
    (insertPath p l).contains q = l.contains q := by
  unfold insertPath
  split
  · rfl
  · simp [List.elem_iff, h]

theorem contains_removePath_self (p : String) (l : List String) :
    (removePath p l).contains p = false := by
  unfold removePath
  simp [List.elem_iff, List.mem_filter]

theorem contains_removePath_ne (p q : String) (l : List String) (h : q ≠ p) :
    (removePath p l).contains q = l.contains q := by
  unfold removePath
  simp [List.elem_iff, List.mem_filter, h]

theorem svcStart_files (env : Env) (s : Svc) (w : World) :
    (svcStart env s w).2.2.files = w.files := rfl

theorem svcStop_files (env : Env) (s : Svc) (w : World) :
    (svcStop env s w).2.2.files = w.files := rfl

theorem svcDestroyCore_files (env : Env) (s : Svc) (w : World) :
    (svcDestroyCore env s w).2.2.files = w.files := by
  cases hu : env.unlinkOk (pjoin "/etc/systemd/system/" s.serviceFile) <;>
    cases hd : env.daemonReloadOk <;> simp [svcDestroyCore, logEvent, hu, hd]

theorem svcDestroy_files (env : Env) (s : Svc) (w : World) :
    (svcDestroy env s w).2.2.files = w.files := by
  cases hs : s.started <;> cases hr : (svcStop env s w).1 <;>
    simp [svcDestroy, hs, hr, svcDestroyCore_files, svcStop_files]

theorem svcSetupPre_files (env : Env) (s : Svc) (w : World) :
    (svcSetupPre env s w).2.2.files = w.files := by
  unfold svcSetupPre
  split
  · exact svcStop_files env s w
  · rfl

theorem svcSetupFile_files (env : Env) (s : Svc) (w : World) (f c : String) :
    (svcSetupFile env s w f c).2.2.files = w.files := by
  by_cases hs : s.serviceFile = "" <;>
    cases hc : env.createFileOk f servicesFolder <;> cases hd : env.daemonReloadOk <;>
      simp [svcSetupFile, logEvent, hc, hd, hs]

theorem brokerSetup_files (env : Env) (s : Svc) (w : World) (u g : String) (p : Nat) :
    (brokerSetup env s w u g p).2.2.files = w.files := by
  cases hp : (svcSetupPre env s w).1 <;>
    simp [brokerSetup, hp, svcSetupFile_files, svcSetupPre_files]

theorem pollerSetup_files (env : Env) (s : Svc) (w : World) (u g d px : String) :
    (pollerSetup env s w u g d px).2.2.files = w.files := by
  cases hp : (svcSetupPre env s w).1 <;>
    simp [pollerSetup, hp, svcSetupFile_files, svcSetupPre_files]

theorem stopLoop_files (env : Env) (l : List Svc) (w : World) :
    (stopLoop env l w).2.2.files = w.files := by
  induction l generalizing w with
  | nil => rfl
  | cons s rest ih =>
    cases hr : (svcStop env s w).1 <;> simp [stopLoop, hr, svcStop_files, ih]

theorem destroyLoop_files (env : Env) (l : List Svc) (w : World) :
    (destroyLoop env l w).2.2.files = w.files := by
  induction l generalizing w with
  | nil => rfl
  | cons s rest ih =>
    cases hr : (svcDestroy env s w).1 <;> simp [destroyLoop, hr, svcDestroy_files, ih]

theorem nodeStop_files (env : Env) (st : ImporterNode) (w : World) :
    (st.stop env w).2.2.files = w.files := by
  unfold ImporterNode.stop
  exact stopLoop_files env st.workers w

theorem nodeDestroy_files (env : Env) (st : ImporterNode) (w : World) :
    (st.destroy env w).2.2.files = w.files := by
  unfold ImporterNode.destroy
  exact destroyLoop_files env st.workers w

theorem primaryStop_files (env : Env) (st : PrimaryImporterNode) (w : World)
    (b p wk : Bool) : (st.stop env w b p wk).2.2.files = w.files := by
  unfold PrimaryImporterNode.stop
  cases p <;> cases b <;> cases wk <;>
    simp only [Bool.true_eq_false, if_true, if_false, ite_true, ite_false] <;>
    (repeat' split) <;>
    simp [svcStop_files, nodeStop_files]

theorem primaryDestroy_files (env : Env) (st : PrimaryImporterNode) (w : World)
    (b p wk : Bool) : (st.destroy env w b p wk).2.2.files = w.files := by
  unfold PrimaryImporterNode.destroy
  cases p <;> cases b <;> cases wk <;>
    simp only [Bool.true_eq_false, if_true, if_false, ite_true, ite_false] <;>
    (repeat' split) <;>
    simp [svcDestroy_files, nodeDestroy_files]

theorem dataDirRecreate_files (env : Env) (st : PrimaryImporterNode) (w : World) :
    (dataDirRecreate env st w).2.2.files = w.files := by
  cases hd : (st.destroy env w true true false).1 <;>
    cases hb : (brokerSetup env (st.destroy env w true true false).2.1.broker
      (st.destroy env w true true false).2.2
      (st.destroy env w true true false).2.1.node.user
      (st.destroy env w true true false).2.1.node.user
      (st.destroy env w true true false).2.1.node.port).1 <;>
    simp [dataDirRecreate, hd, hb, primaryDestroy_files, brokerSetup_files,
      pollerSetup_files]

theorem mkdirPhase_files (env : Env) (w : World) (d : String) :
    (mkdirPhase env w d).2.files = w.files := by
  cases hm : env.mkdirOutcome d <;> simp [mkdirPhase, logEvent, hm]

theorem primaryStop_dataDir (env : Env) (st : PrimaryImporterNode) (w : World)
    (b p wk : Bool) : (st.stop env w b p wk).2.1.dataDir = st.dataDir := by
  unfold PrimaryImporterNode.stop
  cases p <;> cases b <;> cases wk <;>
    simp only [Bool.true_eq_false, if_true, if_false, ite_true, ite_false] <;>
    (repeat' split) <;> rfl

/-! Claim theorems. -/

/-- Claim C1 (code bug): the claim states that after any successful `update`
the worker-list length equals the requested worker count.  Evaluating
`ImporterNode.update` on a one-worker node that requests two workers, with
every backend call succeeding, yields success with the worker list still of
length one: the add-new-workers loop sets the new worker up but never appends
it to `self._workers`. -/
theorem update_scale_up_keeps_old_worker_count :
    scaleUpRun.map (fun r => (r.1, r.2.1.workers.length)) = some (true, 1) := by decide

set_option maxRecDepth 100000 in
/-- Claim C2 (code bug): the claim states that repeating a successful `update`
with the identical desired-state tuple performs zero destroy and zero recreate
operations.  In the recorded run both calls succeed, yet the second call
performs one more service-file unlink and one more unit-file creation than the
first: `update` never stores `push_to_lp`, so the `needs_refresh` comparison
keeps firing. -/
theorem second_identical_update_destroys_again :
    idempotenceRun = some (true, true, 1, 2, 2, 3) := by decide

/-- Claim C3 (code bug): the claim describes N-to-M scale-down combined with a
refresh as exactly N-M destroys plus M destroy-and-recreate pairs.  The code
instead raises `IndexError`: the refresh loop runs over
`range(original_num_workers)` but the list was already popped down to M
entries.  The modelled run (N = 2, M = 1, `force_refresh = True`) returns
`none`, the embedding of an escaped exception. -/
theorem scale_down_with_refresh_crashes : scaleDownRefreshRun = none := by decide

/-- Claim C4 (code bug): the claim states `update` never raises for any
combination of current worker count, requested worker count and refresh flags.
Scaling an installed two-worker node to zero workers while changing the system
user makes the refresh loop index into an empty worker list, an `IndexError`;
the modelled run returns `none`. -/
theorem update_crash_on_scale_to_zero_refresh : scaleToZeroRefreshRun = none := by decide

/-- Claim C5 (counterexample): with only `node_id` changed (2 requested against
1 stored) and every other parameter unchanged, the flag the code computes is
false while the formula the claim states is true, because the code bases both
flags on `force_refresh OR system_user changed OR data_directory changed`
rather than on the claimed six-way `needs_refresh` disjunction. -/
theorem broker_refresh_differs_from_claimed_disjunction :
    brokerRefreshNeeded
      (PrimaryImporterNode.init 1 2 "ubuntu" true 1692 "/var/local/git-ubuntu" "/home/ubuntu")
      false "ubuntu" "/var/local/git-ubuntu" 1692 = false
  ∧ claimedBrokerRefresh
      (PrimaryImporterNode.init 1 2 "ubuntu" true 1692 "/var/local/git-ubuntu" "/home/ubuntu")
      false 2 "ubuntu" true 1692 "127.0.0.1" = true := by decide

/-- Claim C5 (amended): in `PrimaryImporterNode.update` the broker refresh flag
is true exactly when `force_refresh` is set, the system user changed, the data
directory changed, or the primary port changed; the poller refresh flag is true
exactly when `force_refresh` is set, the system user changed, the data
directory changed, or the source directory changed. -/
theorem refresh_flags_depend_on_force_user_datadir_port_source
    (st : PrimaryImporterNode) (force : Bool) (user dataDir sourceDir : String)
    (port : Nat) :
    brokerRefreshNeeded st force user dataDir port
      = (force || user != st.node.user || dataDir != st.dataDir || port != st.node.port)
  ∧ pollerRefreshNeeded st force user dataDir sourceDir
      = (force || user != st.node.user || dataDir != st.dataDir
          || sourceDir != st.sourceDir) := by
  constructor <;>
    simp [brokerRefreshNeeded, pollerRefreshNeeded, fullRefreshNeeded, Bool.or_assoc]

set_option maxRecDepth 100000 in
/-- Claim C6 (code bug): the claim states the poller is recreated with its
denylist path derived from the new source directory.  In the modelled
relocation from `/home/ubuntu` to `/home/user2` the relocation succeeds and
records the new path, but the poller unit file it creates carries the denylist
path under the old `/home/ubuntu` tree, and no unit file with the new path is
ever written: the source reads `self._source_dir` before reassigning it. -/
theorem source_relocation_uses_old_denylist_path :
    sourceRelocRun.1 = true
  ∧ sourceRelocRun.2.1.sourceDir = "/home/user2"
  ∧ (Event.createFile "git-ubuntu-importer-service-poller.service" servicesFolder
      (pollerServiceString "ubuntu" "ubuntu" (denylistPath "/home/ubuntu") ""))
      ∈ sourceRelocRun.2.2.trace
  ∧ (Event.createFile "git-ubuntu-importer-service-poller.service" servicesFolder
      (pollerServiceString "ubuntu" "ubuntu" (denylistPath "/home/user2") ""))
      ∉ sourceRelocRun.2.2.trace := by decide

/-- Claim C7 (confirmed): for a data-directory relocation to a different path
that returns success, a database already present at the target is used as-is
with the filesystem left unchanged; otherwise a database present at the old
directory ends up present at the target and absent at the old location
(moved); and with no database anywhere the relocation leaves the filesystem
unchanged. -/
theorem data_relocation_preserves_database (env : Env) (st : PrimaryImporterNode)
    (w : World) (dd : String) (hne : dd ≠ st.dataDir)
    (hres : (PrimaryImporterNode.updateDataDirectory env st w dd).1 = true) :
    (wContains w (pjoin dd "db") = true →
       ((PrimaryImporterNode.updateDataDirectory env st w dd).2.2).files = w.files)
  ∧ (wContains w (pjoin dd "db") = false → wContains w (pjoin st.dataDir "db") = true →
       wContains ((PrimaryImporterNode.updateDataDirectory env st w dd).2.2)
         (pjoin dd "db") = true
     ∧ wContains ((PrimaryImporterNode.updateDataDirectory env st w dd).2.2)
         (pjoin st.dataDir "db") = false)
  ∧ (wContains w (pjoin dd "db") = false → wContains w (pjoin st.dataDir "db") = false →
       ((PrimaryImporterNode.updateDataDirectory env st w dd).2.2).files = w.files) := by
  have hbeq : (dd == st.dataDir) = false := by
    simp [hne]
  unfold PrimaryImporterNode.updateDataDirectory at hres ⊢
  simp only [hbeq, Bool.false_eq_true, if_false] at hres ⊢
  cases hm : (mkdirPhase env w dd).1 <;> simp only [hm] at hres ⊢
  · simp at hres
  · cases hs : (PrimaryImporterNode.stop env st (mkdirPhase env w dd).2 true true false).1 <;>
      simp only [hs] at hres ⊢
    · simp at hres
    · cases hdb : (dataDirMoveDb env
          (PrimaryImporterNode.stop env st (mkdirPhase env w dd).2 true true false).2.1
          (PrimaryImporterNode.stop env st (mkdirPhase env w dd).2 true true false).2.2 dd).1 <;>
        simp only [hdb] at hres ⊢
      · simp at hres
      · simp only [Bool.not_true, Bool.false_eq_true, if_false, ite_false] at hres ⊢
        have hw2 : ((PrimaryImporterNode.stop env st (mkdirPhase env w dd).2 true true
            false).2.2).files = w.files := by
          rw [primaryStop_files, mkdirPhase_files]
        have hd2 : ((PrimaryImporterNode.stop env st (mkdirPhase env w dd).2 true true
            false).2.1).dataDir = st.dataDir :=
          primaryStop_dataDir env st (mkdirPhase env w dd).2 true true false
        refine ⟨?_, ?_, ?_⟩
        · intro h1
          simp only [wContains] at h1
          simp only [dataDirRecreate_files, dataDirMoveDb, wContains, hw2, hd2, h1,
            eq_self_iff_true, if_true, ite_true]
        · intro h1 h2
          simp only [wContains] at h1 h2
          have hnedb : pjoin st.dataDir "db" ≠ pjoin dd "db" := by
            intro he
            rw [he, h1] at h2
            exact Bool.false_ne_true h2
          simp only [dataDirMoveDb, wContains, hw2, hd2, h1, h2, Bool.false_eq_true,
            if_false, ite_false, eq_self_iff_true, if_true, ite_true] at hdb ⊢
          cases hmv : env.moveOk <;>
            simp only [hmv, Bool.false_eq_true, if_false, ite_false, eq_self_iff_true,
              if_true, ite_true] at hdb ⊢
          simp only [dataDirRecreate_files, logEvent]
          constructor
          · exact contains_insertPath_self _ _
          · rw [contains_insertPath_ne _ _ _ hnedb]
            exact contains_removePath_self _ _
        · intro h1 h2
          simp only [wContains] at h1 h2
          simp only [dataDirRecreate_files, dataDirMoveDb, wContains, hw2, hd2, h1, h2,
            Bool.false_eq_true, if_false, ite_false]

set_option maxRecDepth 100000 in
/-- Witness for claim C7: a node with its database at the old directory
`/var/local/git-ubuntu` and none at the target `/var/new` relocates with every
collaborator call succeeding; the database ends up present at the target and
absent at the old location. -/
theorem data_relocation_preserves_database_witness :
    wContains (PrimaryImporterNode.updateDataDirectory allOkEnv
        (PrimaryImporterNode.init 0 0 "ubuntu" true 1692 "/var/local/git-ubuntu" "/home/ubuntu")
        ⟨["/var/local/git-ubuntu/db"], [], []⟩ "/var/new").2.2 (pjoin "/var/new" "db") = true
  ∧ wContains (PrimaryImporterNode.updateDataDirectory allOkEnv
        (PrimaryImporterNode.init 0 0 "ubuntu" true 1692 "/var/local/git-ubuntu" "/home/ubuntu")
        ⟨["/var/local/git-ubuntu/db"], [], []⟩ "/var/new").2.2
      (pjoin "/var/local/git-ubuntu" "db") = false :=
  (data_relocation_preserves_database allOkEnv
    (PrimaryImporterNode.init 0 0 "ubuntu" true 1692 "/var/local/git-ubuntu" "/home/ubuntu")
    ⟨["/var/local/git-ubuntu/db"], [], []⟩ "/var/new" (by decide) (by decide)).2.1
    (by decide) (by decide)

/-- Claim C8 (confirmed): calling either relocation routine with the currently
recorded path returns `True` with the node state and the world unchanged, so
zero filesystem mutations and zero service stop, destroy or recreate calls are
performed. -/
theorem relocation_with_unchanged_path_is_noop (env : Env) (st : PrimaryImporterNode)
    (w : World) :
    PrimaryImporterNode.updateDataDirectory env st w st.dataDir = (true, st, w)
  ∧ PrimaryImporterNode.updateSourceDirectory env st w st.sourceDir = (true, st, w) := by
  constructor <;>
    simp [PrimaryImporterNode.updateDataDirectory, PrimaryImporterNode.updateSourceDirectory]

set_option maxRecDepth 100000 in
/-- Claim C9 (counterexample): the claim states that every lifecycle operation
on the uninitialized sentinel node, `update` included, fails fast by returning
false without OS operations.  `EmptyImporterNode` does not override `update`,
so the inherited reconciliation runs: requesting two workers returns `True`
and writes two worker unit files through the service backend. -/
theorem empty_node_update_returns_true :
    emptyNodeUpdateRun.map (fun r => (r.1, countCreates r.2.2.trace)) = some (true, 2) := by
  decide

/-- Claim C9 (amended): on the uninitialized sentinel node the four overridden
operations `install`, `start`, `stop` and `destroy` fail fast by returning
false, leaving the world untouched; `update` is not overridden and executes
the base reconciliation, for instance returning `True` for a zero-worker
request without issuing any OS call. -/
theorem empty_node_overridden_ops_fail_fast (w : World) :
    EmptyImporterNode.install w = (false, w)
  ∧ EmptyImporterNode.start w = (false, w)
  ∧ EmptyImporterNode.stop w = (false, w)
  ∧ EmptyImporterNode.destroy w = (false, w)
  ∧ ImporterNode.update allOkEnv EmptyImporterNode.state emptyWorld false 0 0 "" false 0 ""
      = some (true, EmptyImporterNode.state, emptyWorld) :=
  ⟨rfl, rfl, rfl, rfl, by decide⟩

/-- Claim C10 (confirmed): `GitUbuntu.stop` returns `True` whenever the
instance is not currently marked started, even when the backend stop call
fails, and returns `False` exactly when the instance was marked started and
the backend stop call failed. -/
theorem stop_false_iff_started_and_backend_fails (env : Env) (s : Svc) (w : World) :
    (s.started = false → (svcStop env s w).1 = true)
  ∧ ((svcStop env s w).1 = false ↔ s.started = true ∧ env.stopSvcOk s.serviceFile = false) := by
  cases hok : env.stopSvcOk s.serviceFile <;> cases hs : s.started <;>
    simp [svcStop, logEvent, hok, hs]

/-- Witness for claim C10: a never-started instance whose backend stop call
fails still reports success. -/
theorem stop_false_iff_started_and_backend_fails_witness :
    (svcStop { allOkEnv with stopSvcOk := fun _ => false } Svc.blank emptyWorld).1 = true :=
  (stop_false_iff_started_and_backend_fails
    { allOkEnv with stopSvcOk := fun _ => false } Svc.blank emptyWorld).1 rfl

end GitUbuntuOperator
